import Mathlib

/-!
Shallow embedding of the cyphal.rs core (transport codec for classic CAN,
map-backed transfer manager, node dispatcher), together with theorems that
settle the claims of the specification against the code.

Source layout mirrored here:
- src/cyphal/src/transport/can/legacy.rs : the CAN codec (Can),
- src/cyphal/src/transfer/mod.rs         : TransferMetadata and its Hash impl,
- src/cyphal/src/transfer/map_manager.rs : MapTransferManager,
- src/cyphal/src/transfer/manager.rs     : error enums, timestamp_expired,
- src/cyphal/src/node.rs                 : Node::try_receive_frame.

The bitfield helpers (TailByte, CanMessageId, CanServiceId, from the missing
file src/cyphal/src/transport/can/bitfields.rs) and the integer type aliases
(src/cyphal/src/types.rs) are not present under src/; those definitions are
modelled from the spec and are marked as such in their doc comments.

Machine integers are modelled as Nat with explicit reductions modulo 2^w at
the points where the Rust code relies on wrapping or truncation.
-/

namespace Cyphal

/-! ## 64-bit helpers and SipHash-1-3 (std DefaultHasher) -/

/-- Mask a natural number to 64 bits, the width of the hasher state words. -/
def mask64 (x : Nat) : Nat := x % (2 ^ 64)

/-- Wrapping 64-bit addition. -/
def add64 (a b : Nat) : Nat := mask64 (a + b)

/-- Rotate a 64-bit word left by r bits. -/
def rotl64 (x r : Nat) : Nat :=
  mask64 ((x <<< r) ||| (x >>> (64 - r)))

/-- State of the SipHash computation: the four 64-bit lanes. -/
structure SipState where
  v0 : Nat
  v1 : Nat
  v2 : Nat
  v3 : Nat
deriving Repr, DecidableEq

/-- One SipRound of the SipHash permutation. -/
def sipRound (s : SipState) : SipState :=
  let v0 := add64 s.v0 s.v1
  let v1 := rotl64 s.v1 13
  let v1 := Nat.xor v1 v0
  let v0 := rotl64 v0 32
  let v2 := add64 s.v2 s.v3
  let v3 := rotl64 s.v3 16
  let v3 := Nat.xor v3 v2
  let v0 := add64 v0 v3
  let v3 := rotl64 v3 21
  let v3 := Nat.xor v3 v0
  let v2 := add64 v2 v1
  let v1 := rotl64 v1 17
  let v1 := Nat.xor v1 v2
  let v2 := rotl64 v2 32
  { v0 := v0, v1 := v1, v2 := v2, v3 := v3 }

/-- Iterate sipRound n times. -/
def sipRounds : Nat → SipState → SipState
  | 0, s => s
  | n + 1, s => sipRounds n (sipRound s)

/-- Interpret up to eight bytes as a little-endian 64-bit word. -/
def leWord : List Nat → Nat
  | [] => 0
  | b :: bs => (b % 256) + 256 * leWord bs

/-- Absorb one full eight-byte message word into the SipHash-1-3 state
(one compression round per word). -/
def sipAbsorb (s : SipState) (m : Nat) : SipState :=
  let s := { s with v3 := Nat.xor s.v3 m }
  let s := sipRounds 1 s
  { s with v0 := Nat.xor s.v0 m }

/-- Absorb the full eight-byte blocks of the byte stream, then return the
state together with the leftover bytes. -/
def sipBlocks (s : SipState) : List Nat → SipState × List Nat
  | b0 :: b1 :: b2 :: b3 :: b4 :: b5 :: b6 :: b7 :: rest =>
      sipBlocks (sipAbsorb s (leWord [b0, b1, b2, b3, b4, b5, b6, b7])) rest
  | rest => (s, rest)

/-- SipHash-1-3 with both keys zero, which is exactly what Rust's
std::hash::DefaultHasher::new() computes over the written byte stream. -/
def sipHash13 (msg : List Nat) : Nat :=
  let k0 := 0
  let k1 := 0
  let s : SipState :=
    { v0 := Nat.xor 0x736f6d6570736575 k0
      v1 := Nat.xor 0x646f72616e646f6d k1
      v2 := Nat.xor 0x6c7967656e657261 k0
      v3 := Nat.xor 0x7465646279746573 k1 }
  let (s, tail) := sipBlocks s msg
  let b := mask64 (((msg.length % 256) <<< 56) + leWord tail)
  let s := sipAbsorb s b
  let s := { s with v2 := Nat.xor s.v2 0xff }
  let s := sipRounds 3 s
  Nat.xor (Nat.xor s.v0 s.v1) (Nat.xor s.v2 s.v3)

/-! ## CRC-16/CCITT-FALSE (crc_any::CRCu16::crc16ccitt_false) -/

/-- Shift the CRC register left by one bit, applying the 0x1021 polynomial. -/
def crcStep (c : Nat) : Nat :=
  if c.testBit 15 then ((c <<< 1) % 65536) ^^^ 0x1021 else (c <<< 1) % 65536

/-- Iterate crcStep n times. -/
def crcSteps : Nat → Nat → Nat
  | 0, c => c
  | n + 1, c => crcSteps n (crcStep c)

/-- Digest one byte into the CRC-16/CCITT-FALSE register. -/
def crcByte (c b : Nat) : Nat :=
  crcSteps 8 (c ^^^ ((b % 256) <<< 8))

/-- Digest a byte sequence into the CRC register (CRCu16::digest). -/
def crcDigest (c : Nat) (bs : List Nat) : Nat :=
  bs.foldl crcByte c

/-- Initial register value of CRC-16/CCITT-FALSE (CRCu16::crc16ccitt_false). -/
def crcInit : Nat := 0xFFFF

/-- CRC-16/CCITT-FALSE of a byte sequence: init 0xFFFF, poly 0x1021,
no reflection, no output xor; get_crc returns the register. -/
def crc16 (bs : List Nat) : Nat := crcDigest crcInit bs

/-! ## Protocol-level data model (src/cyphal/src/lib.rs, transfer/mod.rs) -/

/-- Protocol-level priorities, in the declaration order of lib.rs, so the
u8 casts are Exceptional = 0 .. Optional = 7. -/
inductive Priority where
  | exceptional
  | immediate
  | fast
  | high
  | nominal
  | low
  | slow
  | optional
deriving Repr, DecidableEq

/-- Numeric value of a priority, matching the derive of ToPrimitive on the
field-less enum in lib.rs. -/
def Priority.toNat : Priority → Nat
  | .exceptional => 0
  | .immediate => 1
  | .fast => 2
  | .high => 3
  | .nominal => 4
  | .low => 5
  | .slow => 6
  | .optional => 7

/-- Priority from a three-bit wire value (Priority::from_u8 on a value that
rx_process_frame has already reduced below eight). -/
def Priority.ofBits (n : Nat) : Priority :=
  match n % 8 with
  | 0 => .exceptional
  | 1 => .immediate
  | 2 => .fast
  | 3 => .high
  | 4 => .nominal
  | 5 => .low
  | 6 => .slow
  | _ => .optional

/-- Protocol-level transfer types, in the declaration order of
transfer/mod.rs: Message, Response, Request, so the u8 casts are 0, 1, 2. -/
inductive TransferKind where
  | message
  | response
  | request
deriving Repr, DecidableEq

/-- Numeric value of a transfer kind (the as-u8 cast in the Hash impl). -/
def TransferKind.toNat : TransferKind → Nat
  | .message => 0
  | .response => 1
  | .request => 2

/-- Metadata describing a transfer (transfer/mod.rs, the revision present
under src/, with the single remote_node_id field). NodeId, PortId and
TransferId come from the missing types.rs; they are modelled from the spec
as natural numbers (NodeId 7-bit semantically, stored 16-bit for hashing;
PortId 16-bit; TransferId 5-bit on CAN, stored 8-bit). -/
structure TransferMetadata where
  timestamp : Nat
  priority : Priority
  transfer_kind : TransferKind
  port_id : Nat
  remote_node_id : Option Nat
  transfer_id : Nat
deriving Repr, DecidableEq

/-- Split a value into its two little-endian bytes, as Hasher::write_u16
feeds them to the hasher on a little-endian target. -/
def leBytes16 (x : Nat) : List Nat := [x % 256, (x / 256) % 256]

/-- Byte stream written by the Hash impl of TransferMetadata
(transfer/mod.rs lines 37-48): priority as u8, transfer_kind as u8, the
remote node id as u16 when present, port_id as u16, transfer_id as u8.
The timestamp is deliberately not written. -/
def metadataHashStream (m : TransferMetadata) : List Nat :=
  [m.priority.toNat, m.transfer_kind.toNat]
    ++ (match m.remote_node_id with
        | some r => leBytes16 r
        | none => [])
    ++ leBytes16 m.port_id
    ++ [m.transfer_id % 256]

/-- Hash of a TransferMetadata through std's DefaultHasher, as
hash_metadata in map_manager.rs computes it. -/
def hashMetadata (m : TransferMetadata) : Nat :=
  sipHash13 (metadataHashStream m)

/-- Protocol-level frame after tail-byte extraction (transfer/mod.rs). -/
structure Frame where
  metadata : TransferMetadata
  payload : List Nat
  first_frame : Bool
  last_frame : Bool
deriving Repr, DecidableEq

/-! ## CAN bitfields

Modelled from the spec: the file src/cyphal/src/transport/can/bitfields.rs
is not present under src/, so TailByte, CanMessageId and CanServiceId are
reconstructed from spec section 4.1 (29-bit extended identifier, two address
spaces keyed by bit 25; tail byte with start_of_transfer, end_of_transfer,
toggle and a 5-bit transfer id). -/

namespace TailByte

/-- Modelled from the spec: start_of_transfer flag of a tail byte (bit 7). -/
def sot (b : Nat) : Bool := b.testBit 7

/-- Modelled from the spec: end_of_transfer flag of a tail byte (bit 6). -/
def eot (b : Nat) : Bool := b.testBit 6

/-- Modelled from the spec: toggle bit of a tail byte (bit 5). -/
def toggle (b : Nat) : Bool := b.testBit 5

/-- Modelled from the spec: the five-bit transfer id of a tail byte. -/
def transferId (b : Nat) : Nat := b % 32

/-- Modelled from the spec: TailByte::new, packing the three flags and the
five-bit transfer id into one byte. -/
def make (sot eot toggle : Bool) (tid : Nat) : Nat :=
  (cond sot 128 0) + (cond eot 64 0) + (cond toggle 32 0) + tid % 32

end TailByte

namespace CanId

/-- Modelled from the spec: service-not-message discriminator, bit 25 of the
29-bit extended identifier. -/
def isSvc (id : Nat) : Bool := id.testBit 25

/-- Modelled from the spec: priority field, the top three bits (28-26). -/
def priorityBits (id : Nat) : Nat := (id >>> 26) % 8

/-- Modelled from the spec: anonymous flag of a message frame (bit 24). -/
def isAnon (id : Nat) : Bool := id.testBit 24

/-- Modelled from the spec: 13-bit subject id of a message frame
(bits 8-20). -/
def subjectId (id : Nat) : Nat := (id >>> 8) % (2 ^ 13)

/-- Modelled from the spec: source node id, the low seven bits. -/
def sourceId (id : Nat) : Nat := id % 128

/-- Modelled from the spec: request-not-response flag of a service frame
(bit 24). -/
def isReq (id : Nat) : Bool := id.testBit 24

/-- Modelled from the spec: 9-bit service id of a service frame
(bits 14-22). -/
def serviceId (id : Nat) : Nat := (id >>> 14) % (2 ^ 9)

/-- Modelled from the spec: destination node id of a service frame
(bits 7-13). -/
def destinationId (id : Nat) : Nat := (id >>> 7) % 128

/-- Modelled from the spec: CanMessageId::valid, which checks that the
reserved bits of a message identifier (bit 23 and bit 7) are clear. -/
def messageValid (id : Nat) : Bool := !id.testBit 23 && !id.testBit 7

/-- Modelled from the spec: CanServiceId::valid, which checks that the
reserved bit of a service identifier (bit 23) is clear. -/
def serviceValid (id : Nat) : Bool := !id.testBit 23

/-- Modelled from the spec: CanMessageId::new. An absent source node id sets
the anonymous bit; the pseudo-random source id the spec calls for is
modelled as zero, which no claim depends on. -/
def mkMessage (priority : Priority) (subject : Nat) (source : Option Nat) : Nat :=
  (priority.toNat <<< 26)
    + (cond (source matches none) (1 <<< 24) 0)
    + ((subject % (2 ^ 13)) <<< 8)
    + (match source with
       | some s => s % 128
       | none => 0)

/-- Modelled from the spec: CanServiceId::new. -/
def mkService (priority : Priority) (isRequest : Bool) (service dest source : Nat) : Nat :=
  (priority.toNat <<< 26)
    + (1 <<< 25)
    + (cond isRequest (1 <<< 24) 0)
    + ((service % (2 ^ 9)) <<< 14)
    + ((dest % 128) <<< 7)
    + source % 128

end CanId

/-! ## CAN transport codec (src/cyphal/src/transport/can/legacy.rs) -/

/-- Protocol errors possible from receiving incoming frames (lib.rs). -/
inductive RxError where
  | transferStartMissingToggle
  | anonNotSingleFrame
  | nonLastUnderUtilization
  | frameEmpty
  | invalidCanId
  | newSessionNoStart
  | timeout
  | invalidFrameOrdering
  | crcError
  | invalidPayload
  | messageWithRemoteId
deriving Repr, DecidableEq

/-- Errors that can be caused by incorrect parameters for transmission
(lib.rs). -/
inductive TxError where
  | anonNotSingleFrame
  | serviceNoSourceID
  | serviceNoDestinationID
deriving Repr, DecidableEq

/-- Extended CAN frame (legacy.rs CanFrame): timestamp, 29-bit identifier
and at most eight payload bytes. -/
structure CanFrame where
  timestamp : Nat
  id : Nat
  payload : List Nat
deriving Repr, DecidableEq

/-- Per-frame transport metadata produced by rx_process_frame (legacy.rs
FrameMetadata): just the toggle bit on CAN. -/
structure FrameMetadata where
  toggle_bit : Bool
deriving Repr, DecidableEq

/-- Per-transfer TX transport metadata (legacy.rs TxMetadata). -/
structure TxMetadata where
  first_frame : Bool
  toggle_bit : Bool
deriving Repr, DecidableEq

/-- Default for TxMetadata exactly as the source writes it (legacy.rs
lines 32-40): first_frame false, toggle_bit true. -/
def TxMetadata.default : TxMetadata :=
  { first_frame := false, toggle_bit := true }

/-- Per-transfer RX transport metadata (legacy.rs RxMetadata): the rolling
CRC register and the last-seen toggle bit. -/
structure RxMetadata where
  crc : Nat
  toggle_bit : Bool
deriving Repr, DecidableEq

/-- Default for RxMetadata (legacy.rs lines 47-56): a fresh
CRC-16/CCITT-FALSE register and an inverted (false) toggle bit so the first
frame's toggle of true is accepted. -/
def RxMetadata.default : RxMetadata :=
  { crc := crcInit, toggle_bit := false }

/-- MTU of classic CAN (legacy.rs MTU_SIZE). -/
def mtuSize : Nat := 8

/-- CRC size on classic CAN (legacy.rs CRC_SIZE). -/
def crcSize : Nat := 2

/-- Buffer size needed for a payload of the requested size once the CRC is
included (legacy.rs get_crc_padded_size): requested_size + 2. -/
def getCrcPaddedSize (requestedSize : Nat) : Nat :=
  requestedSize + 2

/-- Can::update_rx_metadata (legacy.rs lines 72-87): reject a frame whose
toggle equals the stored one, otherwise store the new toggle and digest the
frame payload into the rolling CRC. The Rust function mutates its first
argument in place; it is embedded as returning the new RxMetadata, which is
faithful because the source returns its error before any mutation. -/
def updateRxMetadata (transportMetadata : RxMetadata) (frameMetadata : FrameMetadata)
    (frame : Frame) : Except RxError RxMetadata :=
  if frameMetadata.toggle_bit == transportMetadata.toggle_bit then
    .error .invalidFrameOrdering
  else
    .ok { toggle_bit := frameMetadata.toggle_bit
          crc := crcDigest transportMetadata.crc frame.payload }

/-- Can::process_tx_crc (legacy.rs lines 89-100): compute the CRC of
buffer[0..data_size], write buffer[data_size] = (crc & 0x00FF) as u8 and
buffer[data_size + 1] = (crc & 0xFF00 >> 8) as u8, and return
data_size + 2. The Rust expression crc & 0xFF00 >> 8 parses as
crc & (0xFF00 >> 8) and is embedded with that same grouping. -/
def processTxCrc (buffer : List Nat) (dataSize : Nat) : List Nat × Nat :=
  let crc := crc16 (buffer.take dataSize)
  let buffer := buffer.set dataSize ((crc &&& 0x00FF) % 256)
  let buffer := buffer.set (dataSize + 1) ((crc &&& (0xFF00 >>> 8)) % 256)
  (buffer, dataSize + 2)

/-- Can::rx_process_frame (legacy.rs lines 102-198): validate the tail
byte, classify by identifier space, extract addressing, strip the tail byte
and return the protocol frame together with the frame metadata. -/
def rxProcessFrame (frame : CanFrame) : Except RxError (Frame × FrameMetadata) :=
  if frame.payload.isEmpty then .error .frameEmpty
  else
    let tailByte := frame.payload.getLastD 0
    if TailByte.sot tailByte && !TailByte.toggle tailByte then
      .error .transferStartMissingToggle
    else if !TailByte.eot tailByte && frame.payload.length < mtuSize then
      .error .nonLastUnderUtilization
    else
      let frameMetadata : FrameMetadata := { toggle_bit := TailByte.toggle tailByte }
      if CanId.isSvc frame.id then
        if !CanId.serviceValid frame.id then .error .invalidCanId
        else
          let transferKind :=
            if CanId.isReq frame.id then TransferKind.request else TransferKind.response
          .ok
            ({ metadata :=
                { timestamp := frame.timestamp
                  priority := Priority.ofBits (CanId.priorityBits frame.id)
                  transfer_kind := transferKind
                  port_id := CanId.serviceId frame.id
                  remote_node_id := some (CanId.sourceId frame.id)
                  transfer_id := TailByte.transferId tailByte }
               payload := frame.payload.take (frame.payload.length - 1)
               first_frame := TailByte.sot tailByte
               last_frame := TailByte.eot tailByte },
             frameMetadata)
      else
        if CanId.isAnon frame.id
            && !(TailByte.sot tailByte && TailByte.eot tailByte) then
          .error .anonNotSingleFrame
        else
          let sourceNodeId : Option Nat :=
            if CanId.isAnon frame.id then none else some (CanId.sourceId frame.id)
          if !CanId.messageValid frame.id then .error .invalidCanId
          else
            .ok
              ({ metadata :=
                  { timestamp := frame.timestamp
                    priority := Priority.ofBits (CanId.priorityBits frame.id)
                    transfer_kind := TransferKind.message
                    port_id := CanId.subjectId frame.id
                    remote_node_id := sourceNodeId
                    transfer_id := TailByte.transferId tailByte }
                 payload := frame.payload.take (frame.payload.length - 1)
                 first_frame := TailByte.sot tailByte
                 last_frame := TailByte.eot tailByte },
               frameMetadata)

/-- Can::transmit_frame (legacy.rs lines 200-267). The transport metadata is
mutated (first_frame cleared, toggle flipped) before the identifier is
built, so the updated TxMetadata is returned alongside the result even on
the error paths, exactly as the source behaves. Consumes at most seven
payload bytes and appends the tail byte. -/
def transmitFrame (transferMetadata : TransferMetadata) (transportMetadata : TxMetadata)
    (data : List Nat) (nodeId : Option Nat) (timestamp : Nat) :
    Except TxError (CanFrame × Nat) × TxMetadata :=
  let firstFrame := transportMetadata.first_frame
  let lastFrame : Bool := decide (data.length ≤ 7)
  let toggleBit := transportMetadata.toggle_bit
  let transportMetadata : TxMetadata := { first_frame := false, toggle_bit := !toggleBit }
  let frameId : Except TxError Nat :=
    match transferMetadata.transfer_kind with
    | .message =>
        if !lastFrame && nodeId.isNone then .error .anonNotSingleFrame
        else .ok (CanId.mkMessage transferMetadata.priority transferMetadata.port_id nodeId)
    | k =>
        match nodeId with
        | none => .error .serviceNoSourceID
        | some source =>
            match transferMetadata.remote_node_id with
            | none => .error .serviceNoDestinationID
            | some destination =>
                .ok (CanId.mkService transferMetadata.priority
                  (decide (k = TransferKind.request)) transferMetadata.port_id
                  destination source)
  match frameId with
  | .error e => (.error e, transportMetadata)
  | .ok fid =>
      let tailByte :=
        TailByte.make firstFrame lastFrame toggleBit transferMetadata.transfer_id
      let consumeLen := min 7 data.length
      let payload := data.take consumeLen ++ [tailByte]
      (.ok ({ timestamp := timestamp, id := fid, payload := payload }, consumeLen),
       transportMetadata)

/-! ## Transfer manager state and errors
(src/cyphal/src/transfer/manager.rs, map_manager.rs) -/

/-- No space left or the transfer already exists (manager.rs
CreateTransferError). The rxError variant is the one map_manager.rs
line 107 wraps reception errors into and node.rs matches with a catch-all
arm; the enum declaration in manager.rs lags behind those two uses. -/
inductive CreateTransferError where
  | noSpace
  | alreadyExists
  | rxError (e : RxError)
deriving Repr, DecidableEq

/-- Errors from appending a frame to an existing transfer (manager.rs
UpdateTransferError). -/
inductive UpdateTransferError where
  | noSpace
  | doesNotExist
  | timedOut
  | rxError (e : RxError)
deriving Repr, DecidableEq

/-- Errors from token-based access (manager.rs TokenAccessError). -/
inductive TokenAccessError where
  | invalidToken
  | transferTimeout
deriving Repr, DecidableEq

/-- Wrapper distinguishing internal errors from user-callback errors
(manager.rs InternalOrUserError). -/
inductive InternalOrUserError (ι υ : Type) where
  | internalError (e : ι)
  | userError (e : υ)
deriving Repr, DecidableEq

/-- Status of a stored transfer (map_manager.rs TransferStatus). -/
inductive TransferStatus (δ : Type) where
  | active (d : δ)
  | timedOut
deriving Repr, DecidableEq

/-- Stored RX transfer (map_manager.rs RxTransfer). -/
structure RxTransfer where
  transfer_metadata : TransferMetadata
  transport_metadata : RxMetadata
  payload : List Nat
deriving Repr, DecidableEq

/-- Stored TX transfer (map_manager.rs TxTransfer). -/
structure TxTransfer where
  transfer_metadata : TransferMetadata
  transport_metadata : TxMetadata
  consumed : Nat
  payload : List Nat
deriving Repr, DecidableEq

/-- Lookup in an association list used to model the HashMap keyed by the
64-bit token value. -/
def alGet {α : Type} (k : Nat) : List (Nat × α) → Option α
  | [] => none
  | (k2, v) :: rest => if k2 = k then some v else alGet k rest

/-- Removal of a key, modelling HashMap::remove. -/
def alRemove {α : Type} (k : Nat) (l : List (Nat × α)) : List (Nat × α) :=
  l.filter (fun p => decide (p.1 ≠ k))

/-- Insertion of a key-value pair, modelling HashMap::insert. -/
def alInsert {α : Type} (k : Nat) (v : α) (l : List (Nat × α)) : List (Nat × α) :=
  (k, v) :: alRemove k l

/-- Replace every value of the association list in place, modelling
iter_mut over the HashMap entries. -/
def alMapValues {α : Type} (f : α → α) (l : List (Nat × α)) : List (Nat × α) :=
  l.map (fun p => (p.1, f p.2))

/-- State of MapTransferManager (map_manager.rs): the RX and TX maps, keyed
by the u64 token produced by hash_metadata. -/
structure MgrState where
  rx_transfers : List (Nat × TransferStatus RxTransfer)
  tx_transfers : List (Nat × TransferStatus TxTransfer)
deriving Repr, DecidableEq

/-- MapTransferManager::new: both maps empty. -/
def MgrState.new : MgrState :=
  { rx_transfers := [], tx_transfers := [] }

/-- Predicate timestamp_expired of manager.rs: the stored timestamp, when
present, lies more than the timeout before now. -/
def timestampExpired (timeout now : Nat) (stored : Option Nat) : Bool :=
  match stored with
  | some t => decide (now - t > timeout)
  | none => false

/-! ## MapTransferManager operations (src/cyphal/src/transfer/map_manager.rs) -/

/-- MapTransferManager::append_frame (map_manager.rs lines 64-92): look up
the token derived from the frame metadata; a TimedOut entry reports
TimedOut, an Active entry runs update_rx_metadata (surfacing its error) and
then extends the stored payload, returning the token when the frame is the
last one; an absent entry reports DoesNotExist. -/
def appendFrame (st : MgrState) (frame : Frame) (metadata : FrameMetadata) :
    Except UpdateTransferError (Option Nat) × MgrState :=
  let token := hashMetadata frame.metadata
  match alGet token st.rx_transfers with
  | some .timedOut => (.error .timedOut, st)
  | some (.active rxTransfer) =>
      match updateRxMetadata rxTransfer.transport_metadata metadata frame with
      | .error e => (.error (.rxError e), st)
      | .ok tm =>
          let rxTransfer :=
            { rxTransfer with
                transport_metadata := tm
                payload := rxTransfer.payload ++ frame.payload }
          (.ok (if frame.last_frame then some token else none),
           { st with rx_transfers := alInsert token (.active rxTransfer) st.rx_transfers })
  | none => (.error .doesNotExist, st)

/-- MapTransferManager::new_transfer (map_manager.rs lines 94-125): reject
when the token is already present, otherwise run update_rx_metadata on a
defaulted RxMetadata, store the new Active entry and return the token iff
the frame is also the last one. -/
def newTransfer (st : MgrState) (frame : Frame) (metadata : FrameMetadata) :
    Except CreateTransferError (Option Nat) × MgrState :=
  let token := hashMetadata frame.metadata
  match alGet token st.rx_transfers with
  | some _ => (.error .alreadyExists, st)
  | none =>
      match updateRxMetadata RxMetadata.default metadata frame with
      | .error e => (.error (.rxError e), st)
      | .ok tm =>
          let st :=
            { st with
                rx_transfers :=
                  alInsert token
                    (.active
                      { transfer_metadata := frame.metadata
                        transport_metadata := tm
                        payload := frame.payload })
                    st.rx_transfers }
          (if frame.last_frame then .ok (some token) else .ok none, st)

/-- MapTransferManager::with_rx_transfer (map_manager.rs lines 127-140):
look the token up and hand the stored metadata and payload to the reader
callback; the result carries the pair the callback receives. The map entry
is read with get, not remove, so the state is returned unchanged. -/
def withRxTransfer (st : MgrState) (token : Nat) :
    Except TokenAccessError (TransferMetadata × List Nat) × MgrState :=
  match alGet token st.rx_transfers with
  | some .timedOut => (.error .transferTimeout, st)
  | some (.active transfer) => (.ok (transfer.transfer_metadata, transfer.payload), st)
  | none => (.error .invalidToken, st)

/-- MapTransferManager::cancel_rx_transfer (map_manager.rs lines 142-147). -/
def cancelRxTransfer (st : MgrState) (token : Nat) :
    Except TokenAccessError Unit × MgrState :=
  match alGet token st.rx_transfers with
  | some _ => (.ok (), { st with rx_transfers := alRemove token st.rx_transfers })
  | none => (.error .invalidToken, st)

/-- MapTransferManager::cancel_tx_transfer (map_manager.rs lines 149-154). -/
def cancelTxTransfer (st : MgrState) (token : Nat) :
    Except TokenAccessError Unit × MgrState :=
  match alGet token st.tx_transfers with
  | some _ => (.ok (), { st with tx_transfers := alRemove token st.tx_transfers })
  | none => (.error .invalidToken, st)

/-- MapTransferManager::create_transmission (map_manager.rs lines 156-204).
The user callback receives the zero-initialised prefix of
requested_buffer_size bytes and either fails or reports the bytes it wrote
together with its consumed count; it is modelled by its outcome cbResult,
where the ok payload is the new content of that prefix plus the count. The
consumed count is clamped to the buffer length, process_tx_crc appends the
CRC, the buffer is resized to the reported on-wire length and the Active
entry is stored with a defaulted TxMetadata and a cursor of zero. -/
def createTransmission {ε : Type} (st : MgrState) (requestedBufferSize : Nat)
    (metadata : TransferMetadata) (cbResult : Except ε (List Nat × Nat)) :
    Except (InternalOrUserError CreateTransferError ε) Nat × MgrState :=
  let token := hashMetadata metadata
  match alGet token st.tx_transfers with
  | some _ => (.error (.internalError .alreadyExists), st)
  | none =>
      let finalBufSize := getCrcPaddedSize requestedBufferSize
      match cbResult with
      | .error err => (.error (.userError err), st)
      | .ok (written, consumed0) =>
          let buf :=
            (written.take requestedBufferSize
              ++ List.replicate (requestedBufferSize - written.length) 0)
              ++ List.replicate (finalBufSize - requestedBufferSize) 0
          let consumed := min buf.length consumed0
          let res := processTxCrc buf consumed
          let realLen := res.2
          let buf := res.1.take realLen ++ List.replicate (realLen - res.1.length) 0
          let st :=
            { st with
                tx_transfers :=
                  alInsert token
                    (.active
                      { transfer_metadata := metadata
                        transport_metadata := TxMetadata.default
                        consumed := 0
                        payload := buf })
                    st.tx_transfers }
          (.ok token, st)

/-- MapTransferManager::transmit (map_manager.rs lines 206-236): hand the
stored metadata, transport metadata and the unconsumed payload suffix to
the caller's callback (modelled as a pure function returning the consumed
count and the updated transport metadata, which the Rust closure writes
through its mutable borrow), advance the cursor, and drop the entry when
the cursor reaches the end. -/
def transmit (st : MgrState) (token : Nat)
    (cb : TransferMetadata → TxMetadata → List Nat → Nat × TxMetadata) :
    Except TokenAccessError (Option Nat) × MgrState :=
  match alGet token st.tx_transfers with
  | none => (.error .invalidToken, st)
  | some .timedOut => (.error .transferTimeout, st)
  | some (.active transfer) =>
      let res :=
        cb transfer.transfer_metadata transfer.transport_metadata
          (transfer.payload.drop transfer.consumed)
      let transfer :=
        { transfer with
            transport_metadata := res.2
            consumed := transfer.consumed + res.1 }
      if transfer.consumed ≥ transfer.payload.length then
        (.ok none, { st with tx_transfers := alRemove token st.tx_transfers })
      else
        (.ok (some token),
         { st with tx_transfers := alInsert token (.active transfer) st.tx_transfers })

/-- Status transition applied to one TX entry by the sweep
(map_manager.rs lines 243-258). -/
def sweepTx (now timeout : Nat) (s : TransferStatus TxTransfer) :
    TransferStatus TxTransfer :=
  match s with
  | .active transfer =>
      if timestampExpired timeout now (some transfer.transfer_metadata.timestamp) then
        .timedOut
      else
        .active transfer
  | .timedOut => .timedOut

/-- Status transition applied to one RX entry by the sweep
(map_manager.rs lines 260-275). -/
def sweepRx (now timeout : Nat) (s : TransferStatus RxTransfer) :
    TransferStatus RxTransfer :=
  match s with
  | .active transfer =>
      if timestampExpired timeout now (some transfer.transfer_metadata.timestamp) then
        .timedOut
      else
        .active transfer
  | .timedOut => .timedOut

/-- MapTransferManager::update_transfers (map_manager.rs lines 238-276):
walk both maps and mark every Active entry whose stored timestamp has
expired as TimedOut. -/
def updateTransfers (st : MgrState) (now timeout : Nat) : MgrState :=
  { rx_transfers := alMapValues (sweepRx now timeout) st.rx_transfers
    tx_transfers := alMapValues (sweepTx now timeout) st.tx_transfers }

/-! ## Node dispatcher world (src/cyphal/src/node.rs)

node.rs reads frame.metadata.source_node_id and
frame.metadata.destination_node_id: it is written against the two-field
revision of TransferMetadata described by the spec, while transfer/mod.rs
under src/ still carries the older single remote_node_id field. The
two-field metadata, its hash and the codec that fills the destination from
the service identifier are therefore modelled from the spec; the dispatch
logic itself is embedded from node.rs as it stands. -/

/-- Modelled from the spec: the two-field TransferMetadata (section 3)
that node.rs is compiled against, with explicit optional source and
destination node ids; missing from src/, which holds the one-field
revision. -/
structure NTransferMetadata where
  timestamp : Nat
  priority : Priority
  transfer_kind : TransferKind
  port_id : Nat
  source_node_id : Option Nat
  destination_node_id : Option Nat
  transfer_id : Nat
deriving Repr, DecidableEq

/-- Protocol frame over the two-field metadata. -/
structure NFrame where
  metadata : NTransferMetadata
  payload : List Nat
  first_frame : Bool
  last_frame : Bool
deriving Repr, DecidableEq

/-- Modelled from the spec: the stable hash of the two-field metadata,
excluding the timestamp (spec section 4.2, Keying), through the same
DefaultHasher as the one-field revision. -/
def nHashMetadata (m : NTransferMetadata) : Nat :=
  sipHash13
    ([m.priority.toNat, m.transfer_kind.toNat]
      ++ (match m.source_node_id with
          | some r => leBytes16 r
          | none => [])
      ++ (match m.destination_node_id with
          | some r => leBytes16 r
          | none => [])
      ++ leBytes16 m.port_id
      ++ [m.transfer_id % 256])

/-- Stored RX transfer over the two-field metadata (map_manager.rs
RxTransfer shape). -/
structure NRxTransfer where
  transfer_metadata : NTransferMetadata
  transport_metadata : RxMetadata
  payload : List Nat
deriving Repr, DecidableEq

/-- RX map of the manager held by the node, keyed like map_manager.rs by
the hash token. -/
abbrev NMgr : Type := List (Nat × TransferStatus NRxTransfer)

/-- Can::update_rx_metadata over the two-field frame; the logic is the one
of legacy.rs lines 72-87 verbatim. -/
def nUpdateRxMetadata (transportMetadata : RxMetadata) (frameMetadata : FrameMetadata)
    (frame : NFrame) : Except RxError RxMetadata :=
  if frameMetadata.toggle_bit == transportMetadata.toggle_bit then
    .error .invalidFrameOrdering
  else
    .ok { toggle_bit := frameMetadata.toggle_bit
          crc := crcDigest transportMetadata.crc frame.payload }

/-- MapTransferManager::append_frame over the two-field metadata, mirroring
map_manager.rs lines 64-92 with the spec-modelled hash. -/
def nAppendFrame (st : NMgr) (frame : NFrame) (metadata : FrameMetadata) :
    Except UpdateTransferError (Option Nat) × NMgr :=
  let token := nHashMetadata frame.metadata
  match alGet token st with
  | some .timedOut => (.error .timedOut, st)
  | some (.active rxTransfer) =>
      match nUpdateRxMetadata rxTransfer.transport_metadata metadata frame with
      | .error e => (.error (.rxError e), st)
      | .ok tm =>
          let rxTransfer :=
            { rxTransfer with
                transport_metadata := tm
                payload := rxTransfer.payload ++ frame.payload }
          (.ok (if frame.last_frame then some token else none),
           alInsert token (.active rxTransfer) st)
  | none => (.error .doesNotExist, st)

/-- MapTransferManager::new_transfer over the two-field metadata, mirroring
map_manager.rs lines 94-125 with the spec-modelled hash. -/
def nNewTransfer (st : NMgr) (frame : NFrame) (metadata : FrameMetadata) :
    Except CreateTransferError (Option Nat) × NMgr :=
  let token := nHashMetadata frame.metadata
  match alGet token st with
  | some _ => (.error .alreadyExists, st)
  | none =>
      match nUpdateRxMetadata RxMetadata.default metadata frame with
      | .error e => (.error (.rxError e), st)
      | .ok tm =>
          let st :=
            alInsert token
              (.active
                { transfer_metadata := frame.metadata
                  transport_metadata := tm
                  payload := frame.payload })
              st
          (if frame.last_frame then .ok (some token) else .ok none, st)

/-- Modelled from the spec: Can::rx_process_frame of the two-field
revision. Identical to rxProcessFrame (legacy.rs lines 102-198) except
that, per spec section 3, a service frame fills both the source and the
destination node id from the identifier, and a message frame fills the
source only and never a destination. -/
def nRxProcessFrame (frame : CanFrame) : Except RxError (NFrame × FrameMetadata) :=
  if frame.payload.isEmpty then .error .frameEmpty
  else
    let tailByte := frame.payload.getLastD 0
    if TailByte.sot tailByte && !TailByte.toggle tailByte then
      .error .transferStartMissingToggle
    else if !TailByte.eot tailByte && frame.payload.length < mtuSize then
      .error .nonLastUnderUtilization
    else
      let frameMetadata : FrameMetadata := { toggle_bit := TailByte.toggle tailByte }
      if CanId.isSvc frame.id then
        if !CanId.serviceValid frame.id then .error .invalidCanId
        else
          let transferKind :=
            if CanId.isReq frame.id then TransferKind.request else TransferKind.response
          .ok
            ({ metadata :=
                { timestamp := frame.timestamp
                  priority := Priority.ofBits (CanId.priorityBits frame.id)
                  transfer_kind := transferKind
                  port_id := CanId.serviceId frame.id
                  source_node_id := some (CanId.sourceId frame.id)
                  destination_node_id := some (CanId.destinationId frame.id)
                  transfer_id := TailByte.transferId tailByte }
               payload := frame.payload.take (frame.payload.length - 1)
               first_frame := TailByte.sot tailByte
               last_frame := TailByte.eot tailByte },
             frameMetadata)
      else
        if CanId.isAnon frame.id
            && !(TailByte.sot tailByte && TailByte.eot tailByte) then
          .error .anonNotSingleFrame
        else
          let sourceNodeId : Option Nat :=
            if CanId.isAnon frame.id then none else some (CanId.sourceId frame.id)
          if !CanId.messageValid frame.id then .error .invalidCanId
          else
            .ok
              ({ metadata :=
                  { timestamp := frame.timestamp
                    priority := Priority.ofBits (CanId.priorityBits frame.id)
                    transfer_kind := TransferKind.message
                    port_id := CanId.subjectId frame.id
                    source_node_id := sourceNodeId
                    destination_node_id := none
                    transfer_id := TailByte.transferId tailByte }
                 payload := frame.payload.take (frame.payload.length - 1)
                 first_frame := TailByte.sot tailByte
                 last_frame := TailByte.eot tailByte },
               frameMetadata)

/-- Tail of Node::try_receive_frame (node.rs lines 90-131): the
append_frame / new_transfer dispatch run after the addressing filter, with
NoSpace swallowed, DoesNotExist on a non-first frame reported as
NewSessionNoStart, and manager errors mapped exactly as the source matches
them. -/
def nodeDispatch (mgr : NMgr) (frame : NFrame) (metadata : FrameMetadata) :
    Except RxError (Option Nat) × NMgr :=
  match nAppendFrame mgr frame metadata with
  | (.ok tok, mgr) => (.ok tok, mgr)
  | (.error .noSpace, mgr) => (.ok none, mgr)
  | (.error .doesNotExist, mgr) =>
      if !frame.first_frame then (.error .newSessionNoStart, mgr)
      else
        match nNewTransfer mgr frame metadata with
        | (.ok tok, mgr) => (.ok tok, mgr)
        | (.error .alreadyExists, mgr) => (.ok none, mgr)
        | (.error .noSpace, mgr) => (.ok none, mgr)
        | (.error (.rxError _), mgr) => (.ok none, mgr)
  | (.error (.rxError e), mgr) => (.error e, mgr)
  | (.error .timedOut, mgr) => (.error .timeout, mgr)

/-- Addressing filter and dispatch of Node::try_receive_frame (node.rs
lines 64-131), applied to an already parsed frame: a Message carrying a
destination is a protocol violation; a Request or Response addressed to a
different node, or received while the local node is anonymous, is silently
ignored; everything else reaches the manager. -/
def receiveParsedFrame (id : Option Nat) (mgr : NMgr) (frame : NFrame)
    (metadata : FrameMetadata) : Except RxError (Option Nat) × NMgr :=
  match frame.metadata.destination_node_id with
  | some nodeId =>
      match frame.metadata.transfer_kind with
      | .message => (.error .messageWithRemoteId, mgr)
      | _ =>
          match id with
          | some i =>
              if nodeId ≠ i then (.ok none, mgr)
              else nodeDispatch mgr frame metadata
          | none => (.ok none, mgr)
  | none => nodeDispatch mgr frame metadata

/-- Node::try_receive_frame (node.rs lines 58-132): parse the raw frame
through the codec, then filter and dispatch. -/
def tryReceiveFrame (id : Option Nat) (mgr : NMgr) (raw : CanFrame) :
    Except RxError (Option Nat) × NMgr :=
  match nRxProcessFrame raw with
  | .error e => (.error e, mgr)
  | .ok (frame, metadata) => receiveParsedFrame id mgr frame metadata

/-! ## Round-trip pipeline (claim C1)

The drivers below are compositions of the embedded operations, in the order
the claim prescribes: create_transmission, then the codec's transmit_frame
on the stored buffer until it is exhausted, then rx_process_frame feeding
new_transfer for the first produced frame and append_frame for the rest,
then with_rx_transfer. -/

/-- Repeatedly call the codec transmit_frame on the remaining buffer until
it is exhausted, collecting the produced link-layer frames. The fuel
argument bounds the recursion; callers pass more fuel than frames needed. -/
def txDrive (fuel : Nat) (meta : TransferMetadata) (tm : TxMetadata)
    (data : List Nat) (nodeId : Option Nat) (ts : Nat) :
    Except TxError (List CanFrame) :=
  match fuel with
  | 0 => .ok []
  | fuel + 1 =>
      if data.isEmpty then .ok []
      else
        match transmitFrame meta tm data nodeId ts with
        | (.error e, _) => .error e
        | (.ok (frame, consumed), tm) =>
            match txDrive fuel meta tm (data.drop consumed) nodeId ts with
            | .error e => .error e
            | .ok frames => .ok (frame :: frames)

/-- Feed one link-layer frame through rx_process_frame and into
new_transfer (for the transfer's first frame) or append_frame. -/
def rxIngest (st : MgrState) (isFirst : Bool) (raw : CanFrame) :
    Option (Option Nat × MgrState) :=
  match rxProcessFrame raw with
  | .error _ => none
  | .ok (frame, metadata) =>
      if isFirst then
        match newTransfer st frame metadata with
        | (.ok tok, st) => some (tok, st)
        | (.error _, _) => none
      else
        match appendFrame st frame metadata with
        | (.ok tok, st) => some (tok, st)
        | (.error _, _) => none

/-- Feed a frame sequence, returning the token produced by the final frame
together with the manager state. -/
def rxIngestAll (st : MgrState) (isFirst : Bool) :
    List CanFrame → Option (Option Nat × MgrState)
  | [] => some (none, st)
  | f :: fs =>
      match rxIngest st isFirst f with
      | none => none
      | some (tok, st2) =>
          match fs with
          | [] => some (tok, st2)
          | _ :: _ => rxIngestAll st2 false fs

/-- Full round trip of claim C1 over fresh managers: create the
transmission, drive the codec over the stored buffer, ingest every produced
frame, and read the assembled transfer back through with_rx_transfer. -/
def roundTrip (meta : TransferMetadata) (payload : List Nat)
    (nodeId : Option Nat) (ts : Nat) : Option (TransferMetadata × List Nat) :=
  match createTransmission (ε := Unit) MgrState.new payload.length meta
      (.ok (payload, payload.length)) with
  | (.error _, _) => none
  | (.ok token, st) =>
      match alGet token st.tx_transfers with
      | some (.active t) =>
          match txDrive (t.payload.length + 1) t.transfer_metadata
              t.transport_metadata t.payload nodeId ts with
          | .error _ => none
          | .ok frames =>
              match rxIngestAll MgrState.new true frames with
              | some (some tok, rxSt) =>
                  match withRxTransfer rxSt tok with
                  | (.ok (m, p), _) => some (m, p)
                  | (.error _, _) => none
              | _ => none
      | _ => none

/-! ## Fixtures used by the concrete theorems -/

/-- Transfer metadata of a plain broadcast message, used as the concrete
input of several theorems. -/
def exMeta : TransferMetadata :=
  { timestamp := 100
    priority := .nominal
    transfer_kind := .message
    port_id := 0x1234
    remote_node_id := some 1
    transfer_id := 3 }

/-- Single protocol frame carrying the payload AA BB of a single-frame
transfer with metadata exMeta. -/
def exFrame : Frame :=
  { metadata := exMeta
    payload := [0xAA, 0xBB]
    first_frame := true
    last_frame := true }

/-- Manager state holding the completed single-frame transfer exFrame,
produced by new_transfer on a fresh manager. -/
def exRxSt : MgrState :=
  (newTransfer MgrState.new exFrame { toggle_bit := true }).2

/-- Token of exFrame's transfer, as hash_metadata computes it. -/
def exToken : Nat := hashMetadata exMeta

/-- Tail byte of a frame, as rx_process_frame reads it: the last payload
byte. -/
def rxTail (f : CanFrame) : Nat := f.payload.getLastD 0

/-- Claim C9's preservation property: every entry of either map that is
TimedOut before an operation is still TimedOut (or has been removed)
afterwards; it is never Active again. -/
def preservesTimedOut (before after : MgrState) : Prop :=
  (∀ k, alGet k before.rx_transfers = some TransferStatus.timedOut →
     (alGet k after.rx_transfers = some TransferStatus.timedOut
       ∨ alGet k after.rx_transfers = none))
  ∧ (∀ k, alGet k before.tx_transfers = some TransferStatus.timedOut →
     (alGet k after.tx_transfers = some TransferStatus.timedOut
       ∨ alGet k after.tx_transfers = none))

/-! ## Association-list lemmas -/

theorem alGet_alRemove {α : Type} (k k2 : Nat) (l : List (Nat × α)) :
    alGet k (alRemove k2 l) = if k2 = k then none else alGet k l := by
  induction l with
  | nil => simp [alGet, alRemove]
  | cons p rest ih =>
      obtain ⟨pk, pv⟩ := p
      by_cases hp : pk = k2
      · have h1 : alRemove k2 ((pk, pv) :: rest) = alRemove k2 rest := by
          simp [alRemove, hp]
        rw [h1, ih]
        by_cases hk : k2 = k
        · simp [hk]
        · have hpk : ¬pk = k := by rw [hp]; exact hk
          simp [hk, alGet, hpk]
      · have h1 : alRemove k2 ((pk, pv) :: rest) = (pk, pv) :: alRemove k2 rest := by
          simp [alRemove, hp]
        rw [h1]
        by_cases hk : k2 = k
        · have hpk : ¬pk = k := by rw [← hk]; exact hp
          subst hk
          simp [alGet, hpk, ih]
        · by_cases hpk : pk = k
          · simp [alGet, hpk, hk]
          · simp [alGet, hpk, hk, ih]

theorem alGet_alInsert {α : Type} (k k2 : Nat) (v : α) (l : List (Nat × α)) :
    alGet k (alInsert k2 v l) = if k2 = k then some v else alGet k l := by
  by_cases hk : k2 = k
  · simp [alInsert, alGet, hk]
  · simp [alInsert, alGet, hk, alGet_alRemove]

theorem alGet_alMapValues {α : Type} (f : α → α) (k : Nat) (l : List (Nat × α)) :
    alGet k (alMapValues f l) = (alGet k l).map f := by
  induction l with
  | nil => simp [alGet, alMapValues]
  | cons p rest ih =>
      obtain ⟨pk, pv⟩ := p
      simp only [alMapValues, List.map_cons] at ih ⊢
      by_cases hp : pk = k
      · simp [alGet, hp]
      · simp [alGet, hp]
        simpa [alMapValues] using ih

/-! ## Claim theorems -/

/-- C1: the claim says the create_transmission, transmit_frame,
rx_process_frame into new_transfer/append_frame, with_rx_transfer sequence
returns a payload byte-identical to the input. Evaluating the pipeline on
the single-frame message payload AA refutes it: the received payload is
AA 50 50 — the transfer CRC is appended by create_transmission and never
stripped on the receive side, so the bytes read back differ from the bytes
sent (the non-timestamp metadata does come back equal). -/
theorem C1_round_trip_payload_not_identical :
    roundTrip exMeta [0xAA] (some 1) 7 =
      some ({ exMeta with timestamp := 7 }, [0xAA, 0x50, 0x50])
    ∧ (([0xAA, 0x50, 0x50] : List Nat) == [0xAA]) = false := by
  constructor
  · rfl
  · rfl

/-- C2: the claim says a successful with_rx_transfer consumes the token,
removes the entry, and a repeated access returns InvalidToken. Evaluating
the code on a stored single-frame transfer refutes it: the first call
returns the payload and leaves the manager state unchanged, and a second
call with the same token value succeeds again instead of failing with
InvalidToken. -/
theorem C2_with_rx_transfer_does_not_consume :
    withRxTransfer exRxSt exToken = (.ok (exMeta, [0xAA, 0xBB]), exRxSt)
    ∧ withRxTransfer (withRxTransfer exRxSt exToken).2 exToken =
        (.ok (exMeta, [0xAA, 0xBB]), exRxSt) := by
  constructor
  · rfl
  · rfl

/-- C4: the claim says a single-frame transfer carries no CRC bytes on the
wire. Evaluating the TX pipeline on the one-byte payload AA refutes it:
create_transmission stores the three-byte buffer AA 50 50 (user byte plus
two CRC bytes), and the single emitted frame carries all three before the
tail byte 99 instead of the claimed user-bytes-plus-tail layout. -/
theorem C4_single_frame_transmits_crc :
    alGet exToken
        (createTransmission (ε := Unit) MgrState.new 1 exMeta
          (.ok ([0xAA], 1))).2.tx_transfers =
      some (.active
        { transfer_metadata := exMeta
          transport_metadata := TxMetadata.default
          consumed := 0
          payload := [0xAA, 0x50, 0x50] })
    ∧ (transmitFrame exMeta TxMetadata.default [0xAA, 0x50, 0x50] (some 1) 7).1 =
        .ok ({ timestamp := 7
               id := CanId.mkMessage .nominal 0x1234 (some 1)
               payload := [0xAA, 0x50, 0x50, 99] }, 3)
    ∧ (([0xAA, 0x50, 0x50, 99] : List Nat) == [0xAA, 99]) = false := by
  refine ⟨?_, ?_, ?_⟩
  · rfl
  · rfl
  · rfl

/-- C5: the claim says a freshly defaulted TxMetadata has its first-frame
flag true, so the first emitted tail byte has start_of_transfer set.
Evaluating the code refutes it: TxMetadata::default sets first_frame to
false (only the toggle to true), so the very first call to transmit_frame
emits tail byte 99, whose start_of_transfer bit is clear; the updating of
the stored flags (first_frame cleared, toggle flipped) does behave as
claimed. -/
theorem C5_default_first_frame_flag_false :
    TxMetadata.default = { first_frame := false, toggle_bit := true }
    ∧ transmitFrame exMeta TxMetadata.default [0xAA] (some 1) 0 =
        (.ok ({ timestamp := 0
                id := CanId.mkMessage .nominal 0x1234 (some 1)
                payload := [0xAA, 99] }, 1),
         { first_frame := false, toggle_bit := false })
    ∧ TailByte.sot 99 = false
    ∧ TailByte.toggle 99 = true := by
  refine ⟨?_, ?_, ?_, ?_⟩
  · rfl
  · rfl
  · rfl
  · rfl

/-- C7: the claim says process_tx_crc writes the CRC low byte at
buffer[n] and the CRC high byte at buffer[n + 1]. Evaluating the code on
the byte 01 refutes it: the CRC-16/CCITT-FALSE of 01 is F1D1, yet the
buffer receives D1 at both positions, because crc & 0xFF00 >> 8 parses as
crc & (0xFF00 >> 8) = crc & 0xFF and duplicates the low byte; the returned
length n + 2 is as claimed. -/
theorem C7_crc_high_byte_duplicated_low :
    crc16 [0x01] = 0xF1D1
    ∧ processTxCrc [0x01, 0, 0] 1 = ([0x01, 0xD1, 0xD1], 3)
    ∧ (((0xF1D1 >>> 8) % 256 : Nat) == 0xD1) = false := by
  refine ⟨?_, ?_, ?_⟩
  · rfl
  · rfl
  · rfl

/-- C6 counterexample: the claim states four independent iff
characterisations, but the code checks the conditions in a fixed order. On
the frame whose only payload byte is the tail byte 80 (start_of_transfer
set, toggle clear, end_of_transfer clear, length 1 < 8) the claim requires
the result to be both TransferStartMissingToggle and
NonLastUnderUtilization; the code returns TransferStartMissingToggle, so
the claimed iff for NonLastUnderUtilization fails at this input. -/
theorem C6_counterexample_error_priority :
    rxProcessFrame { timestamp := 0, id := 0, payload := [0x80] } =
      .error .transferStartMissingToggle
    ∧ TailByte.eot 0x80 = false
    ∧ ([0x80] : List Nat).length < 8 := by
  refine ⟨?_, ?_, ?_⟩
  · rfl
  · rfl
  · decide

/-- C10: atomicity of append_frame on a receive error. Whenever the frame's
token resolves to a stored Active RX transfer and update_rx_metadata
rejects the frame, append_frame surfaces the RxError and returns the
manager state exactly as it was: the payload is not extended, the CRC
register is not digested, the stored toggle is unchanged and the entry
remains Active. -/
theorem C10_append_frame_atomic_on_rx_error (st : MgrState) (frame : Frame)
    (metadata : FrameMetadata) (t : RxTransfer) (e : RxError)
    (h1 : alGet (hashMetadata frame.metadata) st.rx_transfers = some (.active t))
    (h2 : updateRxMetadata t.transport_metadata metadata frame = .error e) :
    appendFrame st frame metadata = (.error (.rxError e), st) := by
  unfold appendFrame
  simp only [h1, h2]

/-- Stored transfer of exRxSt, spelled out for the C10 witness. -/
def c10Stored : RxTransfer :=
  { transfer_metadata := exMeta
    transport_metadata := { crc := crc16 [0xAA, 0xBB], toggle_bit := true }
    payload := [0xAA, 0xBB] }

/-- Frame whose toggle repeats the stored one, for the C10 witness. -/
def c10Frame : Frame :=
  { metadata := exMeta
    payload := [0xCC]
    first_frame := false
    last_frame := true }

/-- Witness for C10: on the stored transfer of exRxSt, a frame repeating
the toggle bit makes append_frame report InvalidFrameOrdering and leave
the state untouched. -/
theorem C10_append_frame_atomic_witness :
    appendFrame exRxSt c10Frame { toggle_bit := true } =
      (.error (.rxError .invalidFrameOrdering), exRxSt) :=
  C10_append_frame_atomic_on_rx_error exRxSt c10Frame { toggle_bit := true }
    c10Stored .invalidFrameOrdering (by rfl) (by rfl)

/-- Fixture for C3: a parsed Message frame improperly carrying a
destination node id, exercising the defensive check of node.rs. -/
def c3MsgFrame : NFrame :=
  { metadata :=
      { timestamp := 0
        priority := .nominal
        transfer_kind := .message
        port_id := 0x123
        source_node_id := some 9
        destination_node_id := some 4
        transfer_id := 5 }
    payload := [0x01]
    first_frame := true
    last_frame := true }

/-- Fixture for C3: raw CAN frame of a Request with priority Nominal,
service id 42 hex, destination 17, source 9, and tail byte 229
(start, end and toggle set, transfer id 5). -/
def c3Raw : CanFrame :=
  { timestamp := 0
    id := CanId.mkService .nominal true 0x42 17 9
    payload := [0x01, 229] }

/-- Parse result of c3Raw under the two-field codec. -/
def c3Frame : NFrame :=
  { metadata :=
      { timestamp := 0
        priority := .nominal
        transfer_kind := .request
        port_id := 0x42
        source_node_id := some 9
        destination_node_id := some 17
        transfer_id := 5 }
    payload := [0x01]
    first_frame := true
    last_frame := true }

/-- C3: the addressing filter of Node::try_receive_frame. A parsed Message
frame carrying any destination identifier is rejected with
MessageWithRemoteId before the manager is consulted; a Request or Response
whose destination is not the local id, or arriving while the local node is
anonymous, yields Ok(None) with the transfer manager state unchanged. -/
theorem C3_addressing_filter :
    (∀ (id : Option Nat) (mgr : NMgr) (frame : NFrame) (fm : FrameMetadata) (d : Nat),
        frame.metadata.transfer_kind = .message →
        frame.metadata.destination_node_id = some d →
        receiveParsedFrame id mgr frame fm = (.error .messageWithRemoteId, mgr))
    ∧ (∀ (localId : Nat) (mgr : NMgr) (raw : CanFrame) (frame : NFrame)
          (fm : FrameMetadata) (d : Nat),
        nRxProcessFrame raw = .ok (frame, fm) →
        (frame.metadata.transfer_kind = .request
          ∨ frame.metadata.transfer_kind = .response) →
        frame.metadata.destination_node_id = some d →
        d ≠ localId →
        tryReceiveFrame (some localId) mgr raw = (.ok none, mgr))
    ∧ (∀ (mgr : NMgr) (raw : CanFrame) (frame : NFrame) (fm : FrameMetadata) (d : Nat),
        nRxProcessFrame raw = .ok (frame, fm) →
        (frame.metadata.transfer_kind = .request
          ∨ frame.metadata.transfer_kind = .response) →
        frame.metadata.destination_node_id = some d →
        tryReceiveFrame none mgr raw = (.ok none, mgr)) := by
  refine ⟨?_, ?_, ?_⟩
  · intro id mgr frame fm d hk hd
    unfold receiveParsedFrame
    simp only [hd, hk]
  · intro localId mgr raw frame fm d hparse hkind hd hne
    unfold tryReceiveFrame
    simp only [hparse]
    unfold receiveParsedFrame
    rcases hkind with hk | hk <;> simp only [hd, hk] <;> simp [hne]
  · intro mgr raw frame fm d hparse hkind hd
    unfold tryReceiveFrame
    simp only [hparse]
    unfold receiveParsedFrame
    rcases hkind with hk | hk <;> simp [hd, hk]

/-- Witness for C3: the Message-with-destination fixture is rejected with
MessageWithRemoteId; the Request for node 17 is ignored by local node 42
and by an anonymous node, the manager staying empty in both cases. -/
theorem C3_addressing_filter_witness :
    receiveParsedFrame (some 42) ([] : NMgr) c3MsgFrame { toggle_bit := true } =
      (.error .messageWithRemoteId, ([] : NMgr))
    ∧ tryReceiveFrame (some 42) ([] : NMgr) c3Raw = (.ok none, ([] : NMgr))
    ∧ tryReceiveFrame none ([] : NMgr) c3Raw = (.ok none, ([] : NMgr)) := by
  refine ⟨?_, ?_, ?_⟩
  · exact C3_addressing_filter.1 (some 42) ([] : NMgr) c3MsgFrame
      { toggle_bit := true } 4 rfl rfl
  · exact C3_addressing_filter.2.1 42 ([] : NMgr) c3Raw c3Frame
      { toggle_bit := true } 17 (by rfl) (Or.inl rfl) rfl (by decide)
  · exact C3_addressing_filter.2.2 ([] : NMgr) c3Raw c3Frame
      { toggle_bit := true } 17 (by rfl) (Or.inl rfl) rfl

/-- C6 amended: the tail-byte validation of rx_process_frame, with the iff
conditions ordered by the priority in which the code checks them.
FrameEmpty iff the payload is empty; TransferStartMissingToggle iff the
frame is nonempty and its tail byte has start_of_transfer set with toggle
clear; NonLastUnderUtilization iff additionally the start-toggle check
passed, end_of_transfer is clear and the length is below the MTU;
AnonNotSingleFrame iff additionally the underutilisation check passed, the
identifier is in the message space with the anonymous bit set, and the
frame is not single-frame (start and end both set). -/
theorem C6_amended_tail_byte_validation (f : CanFrame) :
    (rxProcessFrame f = .error .frameEmpty ↔ f.payload.isEmpty = true)
    ∧ (rxProcessFrame f = .error .transferStartMissingToggle ↔
        (¬f.payload.isEmpty = true
          ∧ (TailByte.sot (f.payload.getLastD 0) = true
              ∧ TailByte.toggle (f.payload.getLastD 0) = false)))
    ∧ (rxProcessFrame f = .error .nonLastUnderUtilization ↔
        (¬f.payload.isEmpty = true
          ∧ ¬(TailByte.sot (f.payload.getLastD 0) = true
              ∧ TailByte.toggle (f.payload.getLastD 0) = false)
          ∧ (TailByte.eot (f.payload.getLastD 0) = false
              ∧ f.payload.length < mtuSize)))
    ∧ (rxProcessFrame f = .error .anonNotSingleFrame ↔
        (¬f.payload.isEmpty = true
          ∧ ¬(TailByte.sot (f.payload.getLastD 0) = true
              ∧ TailByte.toggle (f.payload.getLastD 0) = false)
          ∧ ¬(TailByte.eot (f.payload.getLastD 0) = false
              ∧ f.payload.length < mtuSize)
          ∧ ¬CanId.isSvc f.id = true
          ∧ (CanId.isAnon f.id = true
              ∧ (TailByte.sot (f.payload.getLastD 0) = false
                  ∨ TailByte.eot (f.payload.getLastD 0) = false)))) := by
  unfold rxProcessFrame
  split_ifs <;> (try simp_all) <;> (try split_ifs) <;> simp_all

/-- Witness for the amended C6: one concrete frame per error class,
obtained by applying the characterisation. -/
theorem C6_amended_witness :
    rxProcessFrame { timestamp := 0, id := 0, payload := [] } = .error .frameEmpty
    ∧ rxProcessFrame { timestamp := 0, id := 0, payload := [0x90] } =
        .error .transferStartMissingToggle
    ∧ rxProcessFrame { timestamp := 0, id := 0, payload := [0x20] } =
        .error .nonLastUnderUtilization
    ∧ rxProcessFrame { timestamp := 0, id := 1 <<< 24, payload := [0x60] } =
        .error .anonNotSingleFrame := by
  refine ⟨?_, ?_, ?_, ?_⟩
  · exact (C6_amended_tail_byte_validation
      { timestamp := 0, id := 0, payload := [] }).1.mpr (by decide)
  · exact (C6_amended_tail_byte_validation
      { timestamp := 0, id := 0, payload := [0x90] }).2.1.mpr (by decide)
  · exact (C6_amended_tail_byte_validation
      { timestamp := 0, id := 0, payload := [0x20] }).2.2.1.mpr (by decide)
  · exact (C6_amended_tail_byte_validation
      { timestamp := 0, id := 1 <<< 24, payload := [0x60] }).2.2.2.mpr (by decide)

/-! ## Helper lemmas for the TimedOut preservation property -/

theorem preservesTimedOut_refl (st : MgrState) : preservesTimedOut st st := by
  constructor <;> intro k h <;> exact Or.inl h

theorem preservesTimedOut_rx_insert (st : MgrState) (t : Nat)
    (v : TransferStatus RxTransfer)
    (h : ¬alGet t st.rx_transfers = some TransferStatus.timedOut) :
    preservesTimedOut st { st with rx_transfers := alInsert t v st.rx_transfers } := by
  constructor
  · intro k hk
    left
    show alGet k (alInsert t v st.rx_transfers) = _
    rw [alGet_alInsert]
    by_cases ht : t = k
    · subst ht; exact absurd hk h
    · rw [if_neg ht]; exact hk
  · intro k hk
    exact Or.inl hk

theorem preservesTimedOut_rx_remove (st : MgrState) (t : Nat) :
    preservesTimedOut st { st with rx_transfers := alRemove t st.rx_transfers } := by
  constructor
  · intro k hk
    show alGet k (alRemove t st.rx_transfers) = _ ∨ alGet k (alRemove t st.rx_transfers) = _
    rw [alGet_alRemove]
    by_cases ht : t = k
    · rw [if_pos ht]; exact Or.inr rfl
    · rw [if_neg ht]; exact Or.inl hk
  · intro k hk
    exact Or.inl hk

theorem preservesTimedOut_tx_insert (st : MgrState) (t : Nat)
    (v : TransferStatus TxTransfer)
    (h : ¬alGet t st.tx_transfers = some TransferStatus.timedOut) :
    preservesTimedOut st { st with tx_transfers := alInsert t v st.tx_transfers } := by
  constructor
  · intro k hk
    exact Or.inl hk
  · intro k hk
    left
    show alGet k (alInsert t v st.tx_transfers) = _
    rw [alGet_alInsert]
    by_cases ht : t = k
    · subst ht; exact absurd hk h
    · rw [if_neg ht]; exact hk

theorem preservesTimedOut_tx_remove (st : MgrState) (t : Nat) :
    preservesTimedOut st { st with tx_transfers := alRemove t st.tx_transfers } := by
  constructor
  · intro k hk
    exact Or.inl hk
  · intro k hk
    show alGet k (alRemove t st.tx_transfers) = _ ∨ alGet k (alRemove t st.tx_transfers) = _
    rw [alGet_alRemove]
    by_cases ht : t = k
    · rw [if_pos ht]; exact Or.inr rfl
    · rw [if_neg ht]; exact Or.inl hk

theorem preservesTimedOut_updateTransfers (st : MgrState) (now timeout : Nat) :
    preservesTimedOut st (updateTransfers st now timeout) := by
  constructor
  · intro k hk
    left
    show alGet k (alMapValues (sweepRx now timeout) st.rx_transfers) = _
    rw [alGet_alMapValues, hk]
    rfl
  · intro k hk
    left
    show alGet k (alMapValues (sweepTx now timeout) st.tx_transfers) = _
    rw [alGet_alMapValues, hk]
    rfl

/-- C9: the timeout state machine. update_transfers turns a stored Active
entry into TimedOut exactly when its stored timestamp is older than
now minus timeout (strictly: now - timestamp > timeout), in both maps, and
leaves it Active and unchanged otherwise; and no operation of the manager
(the sweep included) ever turns a TimedOut entry back into Active — such
an entry stays TimedOut until it is removed. -/
theorem C9_timeout_state_machine :
    (∀ (st : MgrState) (now timeout k : Nat) (t : RxTransfer),
        alGet k st.rx_transfers = some (.active t) →
        alGet k (updateTransfers st now timeout).rx_transfers =
          some (if now - t.transfer_metadata.timestamp > timeout
                then TransferStatus.timedOut else .active t))
    ∧ (∀ (st : MgrState) (now timeout k : Nat) (t : TxTransfer),
        alGet k st.tx_transfers = some (.active t) →
        alGet k (updateTransfers st now timeout).tx_transfers =
          some (if now - t.transfer_metadata.timestamp > timeout
                then TransferStatus.timedOut else .active t))
    ∧ (∀ (st : MgrState) (now timeout : Nat),
        preservesTimedOut st (updateTransfers st now timeout))
    ∧ (∀ (st : MgrState) (frame : Frame) (fm : FrameMetadata),
        preservesTimedOut st (appendFrame st frame fm).2)
    ∧ (∀ (st : MgrState) (frame : Frame) (fm : FrameMetadata),
        preservesTimedOut st (newTransfer st frame fm).2)
    ∧ (∀ (st : MgrState) (tok : Nat),
        preservesTimedOut st (withRxTransfer st tok).2)
    ∧ (∀ (st : MgrState) (tok : Nat),
        preservesTimedOut st (cancelRxTransfer st tok).2)
    ∧ (∀ (st : MgrState) (tok : Nat),
        preservesTimedOut st (cancelTxTransfer st tok).2)
    ∧ (∀ (ε : Type) (st : MgrState) (n : Nat) (meta : TransferMetadata)
          (cb : Except ε (List Nat × Nat)),
        preservesTimedOut st (createTransmission st n meta cb).2)
    ∧ (∀ (st : MgrState) (tok : Nat)
          (cb : TransferMetadata → TxMetadata → List Nat → Nat × TxMetadata),
        preservesTimedOut st (transmit st tok cb).2) := by
  refine ⟨?_, ?_, ?_, ?_, ?_, ?_, ?_, ?_, ?_, ?_⟩
  · intro st now timeout k t h
    show alGet k (alMapValues (sweepRx now timeout) st.rx_transfers) = _
    rw [alGet_alMapValues, h]
    by_cases hp : now - t.transfer_metadata.timestamp > timeout <;>
      simp [sweepRx, timestampExpired, hp]
  · intro st now timeout k t h
    show alGet k (alMapValues (sweepTx now timeout) st.tx_transfers) = _
    rw [alGet_alMapValues, h]
    by_cases hp : now - t.transfer_metadata.timestamp > timeout <;>
      simp [sweepTx, timestampExpired, hp]
  · exact preservesTimedOut_updateTransfers
  · intro st frame fm
    simp only [appendFrame]
    rcases hm : alGet (hashMetadata frame.metadata) st.rx_transfers with _ | s
    · exact preservesTimedOut_refl st
    · rcases s with t | _
      · dsimp only
        rcases hu : updateRxMetadata t.transport_metadata fm frame with e | tm
        · exact preservesTimedOut_refl st
        · dsimp only
          refine preservesTimedOut_rx_insert st _ _ ?_
          rw [hm]
          simp
      · exact preservesTimedOut_refl st
  · intro st frame fm
    simp only [newTransfer]
    rcases hm : alGet (hashMetadata frame.metadata) st.rx_transfers with _ | s
    · dsimp only
      rcases hu : updateRxMetadata RxMetadata.default fm frame with e | tm
      · exact preservesTimedOut_refl st
      · dsimp only
        refine preservesTimedOut_rx_insert st _ _ ?_
        rw [hm]
        simp
    · exact preservesTimedOut_refl st
  · intro st tok
    simp only [withRxTransfer]
    rcases hm : alGet tok st.rx_transfers with _ | s
    · exact preservesTimedOut_refl st
    · rcases s with t | _
      · exact preservesTimedOut_refl st
      · exact preservesTimedOut_refl st
  · intro st tok
    simp only [cancelRxTransfer]
    rcases hm : alGet tok st.rx_transfers with _ | s
    · exact preservesTimedOut_refl st
    · exact preservesTimedOut_rx_remove st tok
  · intro st tok
    simp only [cancelTxTransfer]
    rcases hm : alGet tok st.tx_transfers with _ | s
    · exact preservesTimedOut_refl st
    · exact preservesTimedOut_tx_remove st tok
  · intro ε st n meta cb
    simp only [createTransmission]
    rcases hm : alGet (hashMetadata meta) st.tx_transfers with _ | s
    · rcases cb with e | w
      · exact preservesTimedOut_refl st
      · rcases w with ⟨written, consumed0⟩
        dsimp only
        refine preservesTimedOut_tx_insert st _ _ ?_
        rw [hm]
        simp
    · exact preservesTimedOut_refl st
  · intro st tok cb
    simp only [transmit]
    rcases hm : alGet tok st.tx_transfers with _ | s
    · exact preservesTimedOut_refl st
    · rcases s with t | _
      · dsimp only
        by_cases hge :
            t.consumed
                + (cb t.transfer_metadata t.transport_metadata
                    (t.payload.drop t.consumed)).1
              ≥ t.payload.length
        · simp only [ge_iff_le] at hge
          simp [hge]
          exact preservesTimedOut_tx_remove st tok
        · simp only [ge_iff_le] at hge
          simp [hge]
          refine preservesTimedOut_tx_insert st _ _ ?_
          rw [hm]
          simp
      · exact preservesTimedOut_refl st

/-- Active RX transfer stamped at time zero, for the C9 witness. -/
def c9Active : RxTransfer :=
  { transfer_metadata := { exMeta with timestamp := 0 }
    transport_metadata := RxMetadata.default
    payload := [1] }

/-- Manager state with one expired Active RX entry and one TimedOut entry
in each map, for the C9 witness. -/
def c9St : MgrState :=
  { rx_transfers := [(7, .active c9Active), (5, .timedOut)]
    tx_transfers := [(6, .timedOut)] }

/-- Witness for C9: at time 100 with timeout 10 the sweep turns the
time-zero Active entry TimedOut, and the TimedOut entries survive a token
access and a cancellation as TimedOut-or-removed. -/
theorem C9_timeout_state_machine_witness :
    alGet 7 (updateTransfers c9St 100 10).rx_transfers = some TransferStatus.timedOut
    ∧ (alGet 5 (withRxTransfer c9St 5).2.rx_transfers = some TransferStatus.timedOut
        ∨ alGet 5 (withRxTransfer c9St 5).2.rx_transfers = none)
    ∧ (alGet 6 (cancelTxTransfer c9St 6).2.tx_transfers = some TransferStatus.timedOut
        ∨ alGet 6 (cancelTxTransfer c9St 6).2.tx_transfers = none) := by
  refine ⟨?_, ?_, ?_⟩
  · have h := C9_timeout_state_machine.1 c9St 100 10 7 c9Active (by decide)
    rw [h]
    decide
  · exact (C9_timeout_state_machine.2.2.2.2.2.1 c9St 5).1 5 (by decide)
  · exact (C9_timeout_state_machine.2.2.2.2.2.2.2.1 c9St 6).2 6 (by decide)

end Cyphal
